import Mathlib

/-!
Shallow embedding of src/ip-freely.py, a one-shot dynamic-DNS update
client.  External effects (the HTTP request to the IP-echo service, DNS
server-name resolution, the DNS query, the key-file existence check and
the nsupdate subprocess) are modelled as inputs gathered in an
environment record.  Each Python function becomes a Lean function of the
data it actually consumes, and the sequential body of main becomes a
function from (parsed arguments, environment, debug toggle) to an
observable run result paired with the list of diagnostic lines printed
under the IPDEBUG environment toggle.
-/

namespace IpFreely

/-- Splits a character list on the dot character; mirrors the group
structure that the Python regex of is_ipv4 and the dotted-quad tail of
inet_pton perceive.  Like Python str.split, the empty input yields one
empty group. -/
def splitDots : List Char → List (List Char)
  | [] => [[]]
  | c :: rest =>
    if c = '.' then [] :: splitDots rest
    else
      match splitDots rest with
      | [] => [[c]]
      | g :: gs => (c :: g) :: gs

/-- Splits a character list on the colon character, used by the model of
inet_pton for AF_INET6. -/
def splitColons : List Char → List (List Char)
  | [] => [[]]
  | c :: rest =>
    if c = ':' then [] :: splitColons rest
    else
      match splitColons rest with
      | [] => [[c]]
      | g :: gs => (c :: g) :: gs

/-- A group of one to three decimal digits, i.e. one group matched by
the regex fragment backslash-d repeated one to three times in is_ipv4
(line 97 of the source). -/
def isDigitGroup (g : List Char) : Bool :=
  decide (1 ≤ g.length) && decide (g.length ≤ 3) && g.all Char.isDigit

/-- Model of the source function is_ipv4 (lines 95-97): a match of the
regex anchored dotted-quad of one-to-three-digit groups.  The regex has
no numeric range check, so groups such as 999 are accepted.  (The model
works on newline-free inputs; the dollar anchor of Python re would also
tolerate one trailing newline.) -/
def is_ipv4 (ip : String) : Bool :=
  match splitDots ip.toList with
  | [a, b, c, d] => isDigitGroup a && isDigitGroup b && isDigitGroup c && isDigitGroup d
  | _ => false

def isHexChar (c : Char) : Bool :=
  c.isDigit || ('a' ≤ c && c ≤ 'f') || ('A' ≤ c && c ≤ 'F')

/-- One hexadecimal group of an IPv6 address: one to four hex digits. -/
def isHexGroup (g : List Char) : Bool :=
  decide (1 ≤ g.length) && decide (g.length ≤ 4) && g.all isHexChar

/-- Decimal value of a digit group. -/
def digitsToNat (g : List Char) : Nat :=
  g.foldl (fun n c => 10 * n + (c.toNat - 48)) 0

/-- One octet of the embedded dotted-quad tail that inet_pton allows at
the end of an IPv6 address: one to three decimal digits, value at most
255. -/
def isIPv4Octet (g : List Char) : Bool :=
  decide (1 ≤ g.length) && decide (g.length ≤ 3) && g.all Char.isDigit
    && decide (digitsToNat g ≤ 255)

/-- The dotted-quad tail of a mixed-notation IPv6 address. -/
def isEmbeddedIPv4 (g : List Char) : Bool :=
  match splitDots g with
  | [a, b, c, d] => isIPv4Octet a && isIPv4Octet b && isIPv4Octet c && isIPv4Octet d
  | _ => false

/-- Model of the source function is_ipv6 (lines 100-106), which defers
to socket.inet_pton(AF_INET6, ip): colon-separated groups of one to four
hex digits, eight groups in full form, at most one double-colon
compression standing for at least one zero group, and an optional
dotted-quad tail standing for the last two groups.  The colon-split list
ps encodes a leading double colon as two leading empty groups, a
trailing one as two trailing empty groups, an interior one as a single
empty group, and the bare double-colon string as three empty groups. -/
def is_ipv6 (ip : String) : Bool :=
  let ps := splitColons ip.toList
  let n := ps.length
  let lastPart := ps.getLast?.getD []
  let hasV4 := lastPart.contains '.'
  let v4ok := !hasV4 || isEmbeddedIPv4 lastPart
  let hexParts := if hasV4 then ps.dropLast else ps
  let nonempty := hexParts.filter (fun p => !p.isEmpty)
  let hexok := nonempty.all isHexGroup
  let count := nonempty.length + (if hasV4 then 2 else 0)
  let empties := (ps.enum.filter (fun pr => pr.2.isEmpty)).map (fun pr => pr.1)
  let pattern : Bool :=
    if empties.isEmpty then count == 8
    else
      ((decide (empties = [0, 1, 2]) && decide (n = 3))
        || (match empties with
            | [i] => decide (0 < i) && decide (i + 1 < n)
            | _ => false)
        || (decide (empties = [0, 1]) && decide (3 ≤ n))
        || (decide (empties = [n - 2, n - 1]) && decide (3 ≤ n)))
      && decide (count + 1 ≤ 8)
  v4ok && hexok && pattern

/-- Model of the source function is_ip (lines 85-92): dispatch on the
dnstype string, with any type other than A and AAAA accepting either
family (the source calls it with ANY when testing whether the DNS server
argument is already an address literal). -/
def is_ip (ip dnstype : String) : Bool :=
  if dnstype = "A" then is_ipv4 ip
  else if dnstype = "AAAA" then is_ipv6 ip
  else is_ipv4 ip || is_ipv6 ip

/-- Python str.strip with no argument: the string with leading and
trailing whitespace removed. -/
def pyStrip (s : String) : String :=
  String.mk (((s.toList.dropWhile Char.isWhitespace).reverse.dropWhile Char.isWhitespace).reverse)

/-- Outcome of the single HTTP GET that get_remote_ip performs: either
some exception (network error, timeout, TLS failure) or a response
body. -/
inductive HttpResult
  | failure
  | success (body : String)
  deriving DecidableEq, Repr

/-- Model of the source function get_remote_ip (lines 109-127): the
response body is decoded and stripped of surrounding whitespace, the
assert on line 121 demands an address of the family implied by dnstype,
and the enclosing try/except turns every failure (request exception or
failed assert) into None. -/
def get_remote_ip (res : HttpResult) (dnstype : String) : Option String :=
  match res with
  | HttpResult.failure => none
  | HttpResult.success body =>
    if is_ip (pyStrip body) dnstype then some (pyStrip body) else none

/-- Diagnostic line of the except branch of get_remote_ip (line 126),
printed when the IPDEBUG toggle is set and the fetch failed.  The model
abstracts the interpolated exception text to a fixed tag. -/
def get_remote_ip_dbgLines (res : HttpResult) (dnstype : String) (debug : Bool) : List String :=
  if debug && (get_remote_ip res dnstype).isNone then
    ["get_remote_ip exception"]
  else []

/-- Environment consumed by get_current_ips: the result of
socket.getaddrinfo on the server name (last entry, none when it raises)
and the answer of the Nslookup query (none when the query raises or
times out). -/
structure DnsEnv where
  resolvedIP : Option String
  queryAnswer : Option (List String)
  deriving DecidableEq, Repr

/-- Model of the source function get_current_ips (lines 130-153).  The
value component is ((answer list, whether getaddrinfo was consulted));
the second component is the list of IPDEBUG diagnostic lines.  The
server is resolved only when it is not already an address literal (the
is_ip test with ANY on line 134); any exception in the try body, and a
query answer failing the all-records-valid assert on line 147, fall into
the bare except and yield the empty list. -/
def get_current_ips (hostname server dnstype : String) (env : DnsEnv) (debug : Bool) :
    (List String × Bool) × List String :=
  let needResolve := !(is_ip server "ANY")
  let resolveOK := !needResolve || env.resolvedIP.isSome
  let ips : List String :=
    if !resolveOK then []
    else
      match env.queryAnswer with
      | none => []
      | some answers => if answers.all (fun ip => is_ip ip dnstype) then answers else []
  let dbg1 := if debug && needResolve && env.resolvedIP.isSome then
      ["get_current_ip: dns server ip: " ++ env.resolvedIP.getD ""] else []
  let dbg2 := if debug && resolveOK && env.queryAnswer.isSome then
      ["get_current_ip: current record: " ++ toString (env.queryAnswer.getD [])] else []
  let dbg3 := if debug then
      ["get_current_ip: " ++ hostname ++ " is " ++ toString ips] else []
  ((ips, needResolve), dbg1 ++ dbg2 ++ dbg3)

/-- Python set equality of two string lists viewed as sets, as computed
by set(a) == set(b) on line 167 of the source. -/
def setEq (a b : List String) : Bool :=
  a.all (fun x => b.contains x) && b.all (fun x => a.contains x)

/-- The change decision of main, read off line 167 of the source: main
skips the update (and exits 0) exactly when the singleton of the new IP
equals the current record set and neither force nor deleteonly is set,
so an update is needed in every other case. -/
def needsUpdate (newip : String) (currentips : List String) (force deleteonly : Bool) : Bool :=
  !(setEq [newip] currentips && !force && !deleteonly)

/-- The update delete directive of create_nsupdate_contents (line 56). -/
def del_line (hostname dnstype : String) : String :=
  "update delete " ++ hostname ++ ". " ++ dnstype

/-- The update add directive of create_nsupdate_contents (line 57),
which is the empty string when deleteonly is set. -/
def add_line (deleteonly : Bool) (hostname : String) (ttl : Nat) (dnstype newip : String) : String :=
  if deleteonly then ""
  else "update add " ++ hostname ++ ". " ++ toString ttl ++ " " ++ dnstype ++ " " ++ newip

/-- The lines of the nsupdate script assembled by the f-string of
create_nsupdate_contents (lines 58-65), in order. -/
def nsupdateLines (server domain hostname newip : String) (ttl : Nat)
    (dnstype : String) (deleteonly : Bool) : List String :=
  ["server " ++ server ++ ".",
   "debug yes",
   "zone " ++ domain ++ ".",
   del_line hostname dnstype,
   add_line deleteonly hostname ttl dnstype newip,
   "show",
   "send",
   "quit"]

/-- Model of the source function create_nsupdate_contents (lines 50-71):
the text written to the temporary file, a newline join of the script
lines. -/
def create_nsupdate_contents (server domain hostname newip : String) (ttl : Nat)
    (dnstype : String) (deleteonly : Bool) : String :=
  String.intercalate "\n" (nsupdateLines server domain hostname newip ttl dnstype deleteonly)

/-- The zone passed to the payload builder, computed in main on line
172: the hostname split on dots as Python str.split does, the leftmost
label dropped, the rest joined with dots again. -/
def deriveDomain (hostname : String) : String :=
  String.intercalate "." (((splitDots hostname.toList).map String.mk).drop 1)

/-- Outcome of the nsupdate subprocess in run_nsupdate (lines 74-82):
either Popen raises (for instance the executable is missing), in which
case the exception propagates out of run_nsupdate and main, or the
process is launched, waited for, and its captured streams and return
code are reported. -/
inductive ExecOutcome
  | launchFailure
  | completed (stdout stderr : String) (rc : Int)
  deriving DecidableEq, Repr

/-- Parsed command-line arguments as produced by getargs (lines 22-47),
in declaration order.  privkey, server and hostname have no default and
are None when absent. -/
structure Args where
  exe : String
  privkey : Option String
  server : Option String
  force : Bool
  ttl : Nat
  hostname : Option String
  dnstype : String
  remoteiplookup : Option String
  deleteonly : Bool
  deriving DecidableEq, Repr

/-- The remote lookup URL after the default derivation of getargs
(lines 40-44): an explicit --remoteiplookup wins, otherwise the ipify v4
endpoint for type A and the ipify v6-capable endpoint otherwise. -/
def resolvedLookupURL (args : Args) : String :=
  match args.remoteiplookup with
  | some u => u
  | none => if args.dnstype = "A" then "https://api.ipify.org" else "https://api64.ipify.org"

/-- The whole external world of one run. keyIsFile is the value of
os.path.isfile on the privkey path (line 160). -/
structure Env where
  http : HttpResult
  keyIsFile : Bool
  dns : DnsEnv
  exec : ExecOutcome
  deriving DecidableEq, Repr

/-- Observable outcome of one run of main.  exitCode 1 covers both
sys.exit(message) and a Python run killed by an uncaught exception (the
launch-failure path); exitMsg is the sys.exit message when there is one.
httpRequested records that get_remote_ip issued its request, dnsQueried
that get_current_ips was invoked, payloadCreated that the temporary
nsupdate file was written, payloadDeleted that os.remove ran on it,
nsupdateRan that run_nsupdate was entered, and payload is the text of
the created script. -/
structure RunResult where
  exitCode : Nat
  exitMsg : Option String
  httpRequested : Bool
  dnsQueried : Bool
  payloadCreated : Bool
  payloadDeleted : Bool
  nsupdateRan : Bool
  payload : Option String
  deriving DecidableEq, Repr

/-- Model of main (lines 156-180) together with the IPDEBUG print in
getargs: the sequential workflow argument check, key-file check, remote
IP fetch, current-record fetch, change decision, payload build, nsupdate
run, cleanup, exit.  The first component is the observable run result;
the second lists the diagnostic lines printed when the IPDEBUG toggle is
set, in program order.  os.remove on line 177 runs only after
run_nsupdate returns, so a launch failure inside run_nsupdate leaves the
temporary file behind. -/
def mainRun (args : Args) (env : Env) (debug : Bool) : RunResult × List String :=
  let dbg0 := if debug then ["Set iplookup to " ++ resolvedLookupURL args] else []
  match args.privkey, args.server, args.hostname with
  | some _, some server, some hostname =>
    if !env.keyIsFile then
      ({ exitCode := 1, exitMsg := some "ERROR: key files not found",
         httpRequested := false, dnsQueried := false, payloadCreated := false,
         payloadDeleted := false, nsupdateRan := false, payload := none }, dbg0)
    else
      let dbgR := get_remote_ip_dbgLines env.http args.dnstype debug
      match get_remote_ip env.http args.dnstype with
      | none =>
        ({ exitCode := 1, exitMsg := some "Invalid IP returned",
           httpRequested := true, dnsQueried := false, payloadCreated := false,
           payloadDeleted := false, nsupdateRan := false, payload := none },
         dbg0 ++ dbgR)
      | some ip =>
        let fetched := get_current_ips hostname server args.dnstype env.dns debug
        let currentips := fetched.1.1
        if !(needsUpdate ip currentips args.force args.deleteonly) then
          ({ exitCode := 0, exitMsg := none,
             httpRequested := true, dnsQueried := true, payloadCreated := false,
             payloadDeleted := false, nsupdateRan := false, payload := none },
           dbg0 ++ dbgR ++ fetched.2
             ++ (if debug then [hostname ++ " is " ++ ip ++ " - unchanged. No update"] else []))
        else
          let domain := deriveDomain hostname
          let content := create_nsupdate_contents server domain hostname ip
              args.ttl args.dnstype args.deleteonly
          let dbgC := (if debug && args.deleteonly then ["delete only"] else [])
              ++ (if debug then ["---\n" ++ content ++ "\n---\n"] else [])
          match env.exec with
          | ExecOutcome.launchFailure =>
            ({ exitCode := 1, exitMsg := none,
               httpRequested := true, dnsQueried := true, payloadCreated := true,
               payloadDeleted := false, nsupdateRan := true, payload := some content },
             dbg0 ++ dbgR ++ fetched.2 ++ dbgC)
          | ExecOutcome.completed out err rc =>
            let dbgN := if debug then [out ++ "\n\n" ++ err ++ "\n"] else []
            if rc ≠ 0 then
              ({ exitCode := 1,
                 exitMsg := some ("ERROR: nsupdate failed - " ++ out ++ " / " ++ err),
                 httpRequested := true, dnsQueried := true, payloadCreated := true,
                 payloadDeleted := true, nsupdateRan := true, payload := some content },
               dbg0 ++ dbgR ++ fetched.2 ++ dbgC ++ dbgN)
            else
              ({ exitCode := 0, exitMsg := none,
                 httpRequested := true, dnsQueried := true, payloadCreated := true,
                 payloadDeleted := true, nsupdateRan := true, payload := some content },
               dbg0 ++ dbgR ++ fetched.2 ++ dbgC ++ dbgN)
  | _, _, _ =>
    ({ exitCode := 1, exitMsg := some "ERROR: not all args specified",
       httpRequested := false, dnsQueried := false, payloadCreated := false,
       payloadDeleted := false, nsupdateRan := false, payload := none }, dbg0)

example : is_ipv4 "1.2.3.4" = true := by decide
example : is_ipv4 "999.1.1.1" = true := by decide
example : is_ipv4 "1.2.3" = false := by decide
example : is_ipv6 "::1" = true := by decide
example : is_ipv6 "1.2.3.4" = false := by decide
example : is_ipv6 "2001:db8::ffff:1" = true := by decide
example : is_ipv6 ":" = false := by decide
example : is_ipv6 "::" = true := by decide
example : is_ipv6 "1:2:3:4:5:6:7:8" = true := by decide
example : is_ipv6 "1:2:3:4:5:6:7:8:9" = false := by decide
example : is_ipv6 "::ffff:1.2.3.4" = true := by decide
example : is_ipv6 "1::2::3" = false := by decide

/-! Helper lemmas shared by the claim theorems. -/

theorem append_ne_empty (a b : String) (h : a ≠ "") : (a ++ b) ≠ "" := by
  intro he
  apply h
  have hd := congrArg String.data he
  rw [String.data_append] at hd
  rcases List.append_eq_nil.mp hd with ⟨ha, _⟩
  cases a
  simp only [String.data] at ha
  simp [ha]

theorem beq_empty_false (a b : String) (h : a ≠ "") : ((a ++ b) == "") = false :=
  beq_eq_false_iff_ne.mpr (append_ne_empty a b h)

theorem splitDots_cons_dot (l : List Char) : splitDots ('.' :: l) = [] :: splitDots l := by
  conv_lhs => rw [splitDots]
  rw [if_pos rfl]

theorem splitDots_cons_ne (c : Char) (l : List Char) (hc : ¬ c = '.') :
    splitDots (c :: l) =
      match splitDots l with
      | [] => [[c]]
      | g :: gs => (c :: g) :: gs := by
  conv_lhs => rw [splitDots]
  rw [if_neg hc]

theorem splitDots_no_dot (l : List Char) (h : ∀ x ∈ l, x ≠ '.') : splitDots l = [l] := by
  induction l with
  | nil => rfl
  | cons c rest ih =>
    have hc : c ≠ '.' := h c (by simp)
    have hr := ih (fun x hx => h x (by simp [hx]))
    rw [splitDots_cons_ne c rest hc, hr]

theorem splitDots_append (xs ys : List Char) (h : ∀ x ∈ xs, x ≠ '.') :
    splitDots (xs ++ '.' :: ys) = xs :: splitDots ys := by
  induction xs with
  | nil =>
    simp only [List.nil_append]
    exact splitDots_cons_dot ys
  | cons c rest ih =>
    have hc : c ≠ '.' := h c (by simp)
    have hr := ih (fun x hx => h x (by simp [hx]))
    rw [List.cons_append, splitDots_cons_ne c _ hc, hr]

theorem isDigitGroup_no_dot (g : List Char) (h : isDigitGroup g = true) :
    ∀ x ∈ g, x ≠ '.' := by
  intro x hx he
  rw [isDigitGroup, Bool.and_eq_true, Bool.and_eq_true] at h
  have hd := List.all_eq_true.mp h.2 x hx
  rw [he] at hd
  exact absurd hd (by decide)

/-- Claim C7: the address validator classifies by family: the dotted
quad 1.2.3.4 is accepted as type A and rejected as type AAAA, the
colon-hex address ::1 is accepted as type AAAA and rejected as type A,
and in general type A dispatches to the dotted-quad check is_ipv4 while
type AAAA dispatches to the IPv6 parse is_ipv6. -/
theorem C7_is_ip_classifies_by_family :
    is_ip "1.2.3.4" "A" = true ∧ is_ip "1.2.3.4" "AAAA" = false ∧
    is_ip "::1" "AAAA" = true ∧ is_ip "::1" "A" = false ∧
    (∀ s : String, is_ip s "A" = is_ipv4 s) ∧
    (∀ s : String, is_ip s "AAAA" = is_ipv6 s) := by
  refine ⟨by decide, by decide, by decide, by decide, fun s => rfl, fun s => ?_⟩
  rw [is_ip]
  rw [if_neg (by decide), if_pos rfl]

theorem setEq_iff_toFinset (a b : List String) :
    setEq a b = true ↔ a.toFinset = b.toFinset := by
  rw [setEq, Bool.and_eq_true, List.all_eq_true, List.all_eq_true]
  constructor
  · rintro ⟨h1, h2⟩
    ext x
    simp only [List.mem_toFinset]
    exact ⟨fun hx => List.elem_iff.mp (h1 x hx), fun hx => List.elem_iff.mp (h2 x hx)⟩
  · intro h
    refine ⟨fun x hx => List.elem_iff.mpr ?_, fun x hx => List.elem_iff.mpr ?_⟩
    · have hm := Finset.ext_iff.mp h x
      rw [List.mem_toFinset, List.mem_toFinset] at hm
      exact hm.mp hx
    · have hm := Finset.ext_iff.mp h x
      rw [List.mem_toFinset, List.mem_toFinset] at hm
      exact hm.mpr hx

/-- Claim C8: the A-type validator is pattern-only, with no numeric
range check: every string of four dot-separated groups of one to three
decimal digits is accepted by is_ipv4, in particular 999.1.1.1 and
999.999.999.999, and such a string also passes the is_ip test with type
ANY that get_current_ips uses to decide whether the DNS server argument
is already an address literal, so the server name is not resolved. -/
theorem C8_ipv4_pattern_only (a b c d : List Char)
    (ha : isDigitGroup a = true) (hb : isDigitGroup b = true)
    (hc : isDigitGroup c = true) (hd : isDigitGroup d = true) :
    is_ipv4 (String.mk (a ++ '.' :: (b ++ '.' :: (c ++ '.' :: d)))) = true
    ∧ is_ipv4 "999.1.1.1" = true
    ∧ is_ip "999.999.999.999" "ANY" = true
    ∧ (∀ hostname dnstype s : String, ∀ env : DnsEnv, ∀ dbg : Bool,
        is_ipv4 s = true → (get_current_ips hostname s dnstype env dbg).1.2 = false) := by
  refine ⟨?_, by decide, by decide, ?_⟩
  · rw [is_ipv4]
    have hL : (String.mk (a ++ '.' :: (b ++ '.' :: (c ++ '.' :: d)))).toList
        = a ++ '.' :: (b ++ '.' :: (c ++ '.' :: d)) := rfl
    rw [hL, splitDots_append a _ (isDigitGroup_no_dot a ha),
        splitDots_append b _ (isDigitGroup_no_dot b hb),
        splitDots_append c _ (isDigitGroup_no_dot c hc),
        splitDots_no_dot d (isDigitGroup_no_dot d hd)]
    simp [ha, hb, hc, hd]
  · intro hostname dnstype s env dbg hs
    show (!(is_ip s "ANY")) = false
    rw [is_ip, if_neg (by decide), if_neg (by decide), hs]
    rfl

/-- Claim C3: the payload builder, fed the zone that main derives from
the hostname, emits exactly the directives server, debug yes, zone,
one update delete, one update add (the latter only when deleteonly is
false), show, send, quit, in that order; the written content is the
newline join of the script lines; and the zone is the hostname with its
leftmost label stripped, as on host.example.com. -/
theorem C3_payload_format (server hostname newip : String) (ttl : Nat)
    (dnstype : String) (deleteonly : Bool) :
    (nsupdateLines server (deriveDomain hostname) hostname newip ttl dnstype deleteonly).filter
        (fun l => !(l == "")) =
      ["server " ++ server ++ ".", "debug yes", "zone " ++ deriveDomain hostname ++ ".",
       "update delete " ++ hostname ++ ". " ++ dnstype]
      ++ (if deleteonly then []
          else ["update add " ++ hostname ++ ". " ++ toString ttl ++ " " ++ dnstype ++ " " ++ newip])
      ++ ["show", "send", "quit"]
    ∧ create_nsupdate_contents server (deriveDomain hostname) hostname newip ttl dnstype deleteonly
        = String.intercalate "\n"
            (nsupdateLines server (deriveDomain hostname) hostname newip ttl dnstype deleteonly)
    ∧ deriveDomain "host.example.com" = "example.com" := by
  have h1 : (("server " ++ server ++ ".") == "") = false := by
    apply beq_eq_false_iff_ne.mpr
    repeat' apply append_ne_empty
    decide
  have h2 : (("zone " ++ deriveDomain hostname ++ ".") == "") = false := by
    apply beq_eq_false_iff_ne.mpr
    repeat' apply append_ne_empty
    decide
  have h3 : (("update delete " ++ hostname ++ ". " ++ dnstype) == "") = false := by
    apply beq_eq_false_iff_ne.mpr
    repeat' apply append_ne_empty
    decide
  have h4 : (("update add " ++ hostname ++ ". " ++ toString ttl ++ " " ++ dnstype ++ " " ++ newip)
      == "") = false := by
    apply beq_eq_false_iff_ne.mpr
    repeat' apply append_ne_empty
    decide
  refine ⟨?_, rfl, by decide⟩
  cases deleteonly with
  | false =>
    simp [nsupdateLines, del_line, add_line, List.filter, h1, h2, h3, h4]
  | true =>
    simp [nsupdateLines, del_line, add_line, List.filter, h1, h2, h3]

/-- Claim C1: the change decision is the pure function needsUpdate of
the new IP, the current record set, and the force and deleteonly flags:
an update is built exactly when deleteonly or force is set or the
singleton of the new IP differs from the current set under set equality
(setEq agrees with Finset equality); on the singleton of the same IP
the decision is the disjunction of the flags, on the empty set it is
true, on a singleton of a different IP it is true; and in main, when the
decision is false, the run exits 0 without touching nsupdate, while the
payload is created exactly when the decision is true. -/
theorem C1_change_decision :
    (∀ ip cur f d, needsUpdate ip cur f d = (d || f || !(setEq [ip] cur)))
    ∧ (∀ a b : List String, setEq a b = true ↔ a.toFinset = b.toFinset)
    ∧ (∀ ip f d, needsUpdate ip [ip] f d = (f || d))
    ∧ (∀ ip f d, needsUpdate ip [] f d = true)
    ∧ (∀ ip other f d, other ≠ ip → needsUpdate ip [other] f d = true)
    ∧ (∀ exe pk sv hn : String, ∀ f : Bool, ∀ ttl : Nat, ∀ t : String,
        ∀ rl : Option String, ∀ dl : Bool, ∀ env : Env, ∀ dbg : Bool, ∀ ip : String,
        env.keyIsFile = true → get_remote_ip env.http t = some ip →
        ((mainRun ⟨exe, some pk, some sv, f, ttl, some hn, t, rl, dl⟩ env dbg).1.payloadCreated
            = needsUpdate ip (get_current_ips hn sv t env.dns dbg).1.1 f dl
          ∧ (needsUpdate ip (get_current_ips hn sv t env.dns dbg).1.1 f dl = false →
              (mainRun ⟨exe, some pk, some sv, f, ttl, some hn, t, rl, dl⟩ env dbg).1.exitCode = 0
              ∧ (mainRun ⟨exe, some pk, some sv, f, ttl, some hn, t, rl, dl⟩ env
                  dbg).1.nsupdateRan = false))) := by
  refine ⟨?_, setEq_iff_toFinset, ?_, fun ip f d => rfl, ?_, ?_⟩
  · intro ip cur f d
    cases hs : setEq [ip] cur <;> cases f <;> cases d <;> simp [needsUpdate, hs]
  · intro ip f d
    have hset : setEq [ip] [ip] = true := by simp [setEq]
    cases f <;> cases d <;> simp [needsUpdate, hset]
  · intro ip other f d h
    have hne : (ip == other) = false := beq_eq_false_iff_ne.mpr (Ne.symm h)
    simp [needsUpdate, setEq, List.contains, List.elem, hne]
  · intro exe pk sv hn f ttl t rl dl env dbg ip hkey hip
    simp only [mainRun, hkey, hip, Bool.not_true, Bool.false_eq_true, if_false]
    cases hnu : needsUpdate ip (get_current_ips hn sv t env.dns dbg).1.1 f dl with
    | false => simp
    | true =>
      cases env.exec with
      | launchFailure => simp
      | completed out err rc =>
        by_cases hrc : rc = 0 <;> simp [hrc]

/-- Claim C4: the remote IP fetch is total: every outcome is either
None, or an address that passes the family check of the assert; a
network failure, a malformed body and a wrong-family body all yield
None; and on a run whose fetch yields None, main exits non-zero and
never builds a payload or touches nsupdate. -/
theorem C4_remote_fetch_never_raises :
    (∀ r t, get_remote_ip r t = none
        ∨ ∃ s, get_remote_ip r t = some s ∧ is_ip s t = true)
    ∧ get_remote_ip HttpResult.failure "A" = none
    ∧ get_remote_ip (HttpResult.success "service unavailable") "A" = none
    ∧ get_remote_ip (HttpResult.success "::1") "A" = none
    ∧ (∀ exe pk sv hn : String, ∀ f : Bool, ∀ ttl : Nat, ∀ t : String,
        ∀ rl : Option String, ∀ dl : Bool, ∀ env : Env, ∀ dbg : Bool,
        get_remote_ip env.http t = none →
        ((mainRun ⟨exe, some pk, some sv, f, ttl, some hn, t, rl, dl⟩ env dbg).1.exitCode ≠ 0
          ∧ (mainRun ⟨exe, some pk, some sv, f, ttl, some hn, t, rl, dl⟩ env
              dbg).1.payloadCreated = false
          ∧ (mainRun ⟨exe, some pk, some sv, f, ttl, some hn, t, rl, dl⟩ env
              dbg).1.nsupdateRan = false
          ∧ (mainRun ⟨exe, some pk, some sv, f, ttl, some hn, t, rl, dl⟩ env
              dbg).1.payload = none)) := by
  refine ⟨?_, rfl, by decide, by decide, ?_⟩
  · intro r t
    cases r with
    | failure => exact Or.inl rfl
    | success body =>
      cases h : is_ip (pyStrip body) t with
      | false => exact Or.inl (by simp [get_remote_ip, h])
      | true => exact Or.inr ⟨pyStrip body, by simp [get_remote_ip, h], h⟩
  · intro exe pk sv hn f ttl t rl dl env dbg hip
    cases hkey : env.keyIsFile with
    | false => simp [mainRun, hkey]
    | true => simp [mainRun, hkey, hip]

/-- Claim C5: the current-record fetch never propagates an error: when
server-name resolution fails (the server is not an address literal and
getaddrinfo raises), when the DNS query fails or times out, or when some
returned record fails the expected-family check, the fetch returns the
empty list; and main treats the fetch result opaquely, so a run over a
failing DNS environment proceeds exactly like a run over an environment
that genuinely has no record. -/
theorem C5_current_fetch_degrades :
    (∀ hn sv t : String, ∀ env : DnsEnv, ∀ dbg : Bool,
        is_ip sv "ANY" = false → env.resolvedIP = none →
        (get_current_ips hn sv t env dbg).1.1 = [])
    ∧ (∀ hn sv t : String, ∀ env : DnsEnv, ∀ dbg : Bool, env.queryAnswer = none →
        (get_current_ips hn sv t env dbg).1.1 = [])
    ∧ (∀ hn sv t : String, ∀ env : DnsEnv, ∀ dbg : Bool, ∀ ips : List String,
        env.queryAnswer = some ips → ips.all (fun ip => is_ip ip t) = false →
        (get_current_ips hn sv t env dbg).1.1 = [])
    ∧ (∀ exe pk sv hn : String, ∀ f : Bool, ∀ ttl : Nat, ∀ t : String,
        ∀ rl : Option String, ∀ dl : Bool, ∀ http : HttpResult, ∀ exec : ExecOutcome,
        ∀ dns dns2 : DnsEnv, ∀ dbg : Bool,
        (get_current_ips hn sv t dns dbg).1.1 = (get_current_ips hn sv t dns2 dbg).1.1 →
        (mainRun ⟨exe, some pk, some sv, f, ttl, some hn, t, rl, dl⟩
            ⟨http, true, dns, exec⟩ dbg).1
          = (mainRun ⟨exe, some pk, some sv, f, ttl, some hn, t, rl, dl⟩
              ⟨http, true, dns2, exec⟩ dbg).1) := by
  refine ⟨?_, ?_, ?_, ?_⟩
  · intro hn sv t env dbg h1 h2
    simp [get_current_ips, h1, h2]
  · intro hn sv t env dbg h
    simp [get_current_ips, h]
  · intro hn sv t env dbg ips h hbad
    simp [get_current_ips, h, hbad]
  · intro exe pk sv hn f ttl t rl dl http exec dns dns2 dbg h
    simp only [mainRun]
    cases hi : get_remote_ip http t with
    | none => rfl
    | some ip =>
      rw [h]
      cases hnu : needsUpdate ip (get_current_ips hn sv t dns2 dbg).1.1 f dl with
      | false => simp only [hnu]; rfl
      | true =>
        simp only [hnu]
        cases exec with
        | launchFailure => rfl
        | completed out err rc => by_cases hrc : rc = 0 <;> simp [hrc]

/-- Claim C6: when privkey, server or hostname is absent, or the privkey
path is not an existing file, main exits non-zero before any network
action: no HTTP request is issued, the current-record fetch is never
invoked, and no payload or nsupdate run happens. -/
theorem C6_validation_before_network (args : Args) (env : Env) (dbg : Bool)
    (h : args.privkey = none ∨ args.server = none ∨ args.hostname = none
        ∨ env.keyIsFile = false) :
    (mainRun args env dbg).1.exitCode ≠ 0
    ∧ (mainRun args env dbg).1.httpRequested = false
    ∧ (mainRun args env dbg).1.dnsQueried = false
    ∧ (mainRun args env dbg).1.nsupdateRan = false
    ∧ (mainRun args env dbg).1.payloadCreated = false := by
  obtain ⟨e, pk, sv, f, ttl, hn, t, rl, dl⟩ := args
  rcases pk with _ | pk
  · simp [mainRun]
  rcases sv with _ | sv
  · simp [mainRun]
  rcases hn with _ | hn
  · simp [mainRun]
  rcases h with h | h | h | h
  · simp at h
  · simp at h
  · simp at h
  · simp [mainRun, h]

/-- Claim C9: on a run that reaches run_nsupdate and whose subprocess
completes, a non-zero return code makes main exit non-zero with a
message carrying the captured standard output and standard error, while
a zero return code makes main exit 0. -/
theorem C9_nsupdate_status_surfaced (exe pk sv hn : String) (f : Bool) (ttl : Nat)
    (t : String) (rl : Option String) (dl : Bool) (http : HttpResult) (dns : DnsEnv)
    (out err : String) (rc : Int) (dbg : Bool)
    (hran : (mainRun ⟨exe, some pk, some sv, f, ttl, some hn, t, rl, dl⟩
        ⟨http, true, dns, ExecOutcome.completed out err rc⟩ dbg).1.nsupdateRan = true) :
    (rc ≠ 0 →
      (mainRun ⟨exe, some pk, some sv, f, ttl, some hn, t, rl, dl⟩
          ⟨http, true, dns, ExecOutcome.completed out err rc⟩ dbg).1.exitCode ≠ 0
      ∧ (mainRun ⟨exe, some pk, some sv, f, ttl, some hn, t, rl, dl⟩
          ⟨http, true, dns, ExecOutcome.completed out err rc⟩ dbg).1.exitMsg
        = some ("ERROR: nsupdate failed - " ++ out ++ " / " ++ err))
    ∧ (rc = 0 →
      (mainRun ⟨exe, some pk, some sv, f, ttl, some hn, t, rl, dl⟩
          ⟨http, true, dns, ExecOutcome.completed out err rc⟩ dbg).1.exitCode = 0) := by
  simp only [mainRun] at hran ⊢
  cases hi : get_remote_ip http t with
  | none => simp [hi] at hran
  | some ip =>
    simp only [hi] at hran ⊢
    cases hnu : needsUpdate ip (get_current_ips hn sv t dns dbg).1.1 f dl with
    | false => simp [hnu] at hran
    | true =>
      simp only [hnu] at hran ⊢
      by_cases hrc : rc = 0 <;> simp [hrc]

/-- Claim C10: the IPDEBUG toggle changes only the diagnostic output:
for every argument vector and environment, the observable run result
(decision, payload, exit code and message, every recorded action) is the
same with the toggle on and off. -/
theorem C10_debug_toggle_no_behavior_change (args : Args) (env : Env) :
    (mainRun args env true).1 = (mainRun args env false).1 := by
  obtain ⟨e, pk, sv, f, ttl, hn, t, rl, dl⟩ := args
  obtain ⟨http, key, dns, exec⟩ := env
  rcases pk with _ | pk
  · rfl
  rcases sv with _ | sv
  · rfl
  rcases hn with _ | hn
  · rfl
  cases key
  · rfl
  simp only [mainRun]
  cases hi : get_remote_ip http t with
  | none => rfl
  | some ip =>
    have h11 : (get_current_ips hn sv t dns true).1.1
        = (get_current_ips hn sv t dns false).1.1 := rfl
    rw [h11]
    cases hnu : needsUpdate ip (get_current_ips hn sv t dns false).1.1 f dl with
    | false => simp only [hnu]; rfl
    | true =>
      simp only [hnu]
      cases exec with
      | launchFailure => rfl
      | completed out err rc => by_cases hrc : rc = 0 <;> simp [hrc]

/-- Claim C2 fails on the code: a run that creates the temporary payload
file and then cannot launch the nsupdate executable (Popen raises, for
example because the executable path does not exist) propagates the
exception past the os.remove call on line 177, so the process exits with
the file still on disk.  This concrete run creates the payload and never
deletes it. -/
theorem C2_cleanup_counterexample :
    (mainRun ⟨"/usr/bin/nsupdate", some "domain.key", some "ns1.example.net", false, 300,
        some "host.example.com", "A", none, false⟩
      ⟨HttpResult.success "203.0.113.5", true, ⟨some "198.51.100.1", some []⟩,
        ExecOutcome.launchFailure⟩ false).1.payloadCreated = true
    ∧ (mainRun ⟨"/usr/bin/nsupdate", some "domain.key", some "ns1.example.net", false, 300,
        some "host.example.com", "A", none, false⟩
      ⟨HttpResult.success "203.0.113.5", true, ⟨some "198.51.100.1", some []⟩,
        ExecOutcome.launchFailure⟩ false).1.payloadDeleted = false := by
  constructor <;> rfl

/-- Claim C2, amended: the temporary payload file is deleted on every
run in which it is created and the nsupdate subprocess is successfully
launched and waited for, whatever its exit status; when launching the
subprocess raises, the deletion is skipped and the file leaks. -/
theorem C2_cleanup_after_completed_exec (args : Args) (env : Env) (dbg : Bool)
    (out err : String) (rc : Int)
    (hexec : env.exec = ExecOutcome.completed out err rc)
    (hc : (mainRun args env dbg).1.payloadCreated = true) :
    (mainRun args env dbg).1.payloadDeleted = true := by
  obtain ⟨e, pk, sv, f, ttl, hn, t, rl, dl⟩ := args
  rcases pk with _ | pk
  · simp [mainRun] at hc
  rcases sv with _ | sv
  · simp [mainRun] at hc
  rcases hn with _ | hn
  · simp [mainRun] at hc
  cases hkey : env.keyIsFile with
  | false => simp [mainRun, hkey] at hc
  | true =>
    simp only [mainRun, hkey] at hc ⊢
    cases hi : get_remote_ip env.http t with
    | none => simp [hi] at hc
    | some ip =>
      simp only [hi] at hc ⊢
      cases hnu : needsUpdate ip (get_current_ips hn sv t env.dns dbg).1.1 f dl with
      | false => simp [hnu] at hc
      | true =>
        simp only [hnu] at hc ⊢
        rw [hexec] at hc ⊢
        by_cases hrc : rc = 0 <;> simp [hrc]

/-- Witness for C1: with the fetched address equal to the published
singleton and no flags, the decision is false and main exits 0 without
running nsupdate. -/
theorem C1_change_decision_witness :
    needsUpdate "203.0.113.5"
        (get_current_ips "host.example.com" "ns1.example.net" "A"
          ⟨some "198.51.100.1", some ["203.0.113.5"]⟩ false).1.1 false false = false
    ∧ (mainRun ⟨"/usr/bin/nsupdate", some "domain.key", some "ns1.example.net", false, 300,
          some "host.example.com", "A", none, false⟩
        ⟨HttpResult.success "203.0.113.5", true, ⟨some "198.51.100.1", some ["203.0.113.5"]⟩,
          ExecOutcome.completed "" "" 0⟩ false).1.exitCode = 0
    ∧ (mainRun ⟨"/usr/bin/nsupdate", some "domain.key", some "ns1.example.net", false, 300,
          some "host.example.com", "A", none, false⟩
        ⟨HttpResult.success "203.0.113.5", true, ⟨some "198.51.100.1", some ["203.0.113.5"]⟩,
          ExecOutcome.completed "" "" 0⟩ false).1.nsupdateRan = false :=
  ⟨by decide,
    (C1_change_decision.2.2.2.2.2 "/usr/bin/nsupdate" "domain.key" "ns1.example.net"
        "host.example.com" false 300 "A" none false
        ⟨HttpResult.success "203.0.113.5", true, ⟨some "198.51.100.1", some ["203.0.113.5"]⟩,
          ExecOutcome.completed "" "" 0⟩ false "203.0.113.5" rfl (by decide)).2 (by decide)⟩

/-- Witness for C4: a failed fetch yields None and the corresponding run
exits non-zero. -/
theorem C4_remote_fetch_never_raises_witness :
    get_remote_ip HttpResult.failure "A" = none
    ∧ (mainRun ⟨"/usr/bin/nsupdate", some "domain.key", some "ns1.example.net", false, 300,
          some "host.example.com", "A", none, false⟩
        ⟨HttpResult.failure, true, ⟨none, none⟩, ExecOutcome.launchFailure⟩
        false).1.exitCode ≠ 0 :=
  ⟨rfl,
    (C4_remote_fetch_never_raises.2.2.2.2 "/usr/bin/nsupdate" "domain.key" "ns1.example.net"
        "host.example.com" false 300 "A" none false
        ⟨HttpResult.failure, true, ⟨none, none⟩, ExecOutcome.launchFailure⟩ false rfl).1⟩

/-- Witness for C5: an answer containing a non-address record degrades
to the empty current set. -/
theorem C5_current_fetch_degrades_witness :
    (["5.6.7.8", "bogus"].all fun ip => is_ip ip "A") = false
    ∧ (get_current_ips "host.example.com" "ns1.example.net" "A"
        ⟨some "198.51.100.1", some ["5.6.7.8", "bogus"]⟩ false).1.1 = [] :=
  ⟨by decide,
    C5_current_fetch_degrades.2.2.1 "host.example.com" "ns1.example.net" "A"
      ⟨some "198.51.100.1", some ["5.6.7.8", "bogus"]⟩ false ["5.6.7.8", "bogus"]
      rfl (by decide)⟩

/-- Witness for C6: a run with no privkey argument performs no HTTP
request. -/
theorem C6_validation_before_network_witness :
    (⟨"/usr/bin/nsupdate", none, some "ns1.example.net", false, 300, some "host.example.com",
        "A", none, false⟩ : Args).privkey = none
    ∧ (mainRun ⟨"/usr/bin/nsupdate", none, some "ns1.example.net", false, 300,
          some "host.example.com", "A", none, false⟩
        ⟨HttpResult.failure, true, ⟨none, none⟩, ExecOutcome.launchFailure⟩
        false).1.httpRequested = false :=
  ⟨rfl,
    (C6_validation_before_network
      ⟨"/usr/bin/nsupdate", none, some "ns1.example.net", false, 300, some "host.example.com",
        "A", none, false⟩
      ⟨HttpResult.failure, true, ⟨none, none⟩, ExecOutcome.launchFailure⟩
      false (Or.inl rfl)).2.1⟩

/-- Witness for C8: 999.999.999.999 is accepted by the pattern-only
A validator via the general digit-group statement. -/
theorem C8_ipv4_pattern_only_witness :
    isDigitGroup ['9', '9', '9'] = true
    ∧ is_ipv4 (String.mk (['9', '9', '9'] ++ '.' :: (['9', '9', '9'] ++ '.' ::
        (['9', '9', '9'] ++ '.' :: ['9', '9', '9'])))) = true :=
  ⟨by decide,
    (C8_ipv4_pattern_only ['9', '9', '9'] ['9', '9', '9'] ['9', '9', '9'] ['9', '9', '9']
      (by decide) (by decide) (by decide) (by decide)).1⟩

/-- Witness for C9: a subprocess return code of 1 surfaces as a
non-zero exit with the captured streams in the message. -/
theorem C9_nsupdate_status_surfaced_witness :
    (mainRun ⟨"/usr/bin/nsupdate", some "domain.key", some "ns1.example.net", false, 300,
        some "host.example.com", "A", none, false⟩
      ⟨HttpResult.success "203.0.113.5", true, ⟨some "198.51.100.1", some []⟩,
        ExecOutcome.completed "boom" "fail" 1⟩ false).1.nsupdateRan = true
    ∧ (mainRun ⟨"/usr/bin/nsupdate", some "domain.key", some "ns1.example.net", false, 300,
        some "host.example.com", "A", none, false⟩
      ⟨HttpResult.success "203.0.113.5", true, ⟨some "198.51.100.1", some []⟩,
        ExecOutcome.completed "boom" "fail" 1⟩ false).1.exitCode ≠ 0
    ∧ (mainRun ⟨"/usr/bin/nsupdate", some "domain.key", some "ns1.example.net", false, 300,
        some "host.example.com", "A", none, false⟩
      ⟨HttpResult.success "203.0.113.5", true, ⟨some "198.51.100.1", some []⟩,
        ExecOutcome.completed "boom" "fail" 1⟩ false).1.exitMsg
      = some ("ERROR: nsupdate failed - " ++ "boom" ++ " / " ++ "fail") :=
  ⟨by decide,
    ((C9_nsupdate_status_surfaced "/usr/bin/nsupdate" "domain.key" "ns1.example.net"
        "host.example.com" false 300 "A" none false (HttpResult.success "203.0.113.5")
        ⟨some "198.51.100.1", some []⟩ "boom" "fail" 1 false (by decide)).1 (by decide)).1,
    ((C9_nsupdate_status_surfaced "/usr/bin/nsupdate" "domain.key" "ns1.example.net"
        "host.example.com" false 300 "A" none false (HttpResult.success "203.0.113.5")
        ⟨some "198.51.100.1", some []⟩ "boom" "fail" 1 false (by decide)).1 (by decide)).2⟩

/-- Witness for the amended C2: with the subprocess launched and
completing with return code 1, the created payload file is deleted. -/
theorem C2_cleanup_after_completed_exec_witness :
    (mainRun ⟨"/usr/bin/nsupdate", some "domain.key", some "ns1.example.net", false, 300,
        some "host.example.com", "A", none, false⟩
      ⟨HttpResult.success "203.0.113.5", true, ⟨some "198.51.100.1", some []⟩,
        ExecOutcome.completed "boom" "fail" 1⟩ false).1.payloadCreated = true
    ∧ (mainRun ⟨"/usr/bin/nsupdate", some "domain.key", some "ns1.example.net", false, 300,
        some "host.example.com", "A", none, false⟩
      ⟨HttpResult.success "203.0.113.5", true, ⟨some "198.51.100.1", some []⟩,
        ExecOutcome.completed "boom" "fail" 1⟩ false).1.payloadDeleted = true :=
  ⟨by decide,
    C2_cleanup_after_completed_exec
      ⟨"/usr/bin/nsupdate", some "domain.key", some "ns1.example.net", false, 300,
        some "host.example.com", "A", none, false⟩
      ⟨HttpResult.success "203.0.113.5", true, ⟨some "198.51.100.1", some []⟩,
        ExecOutcome.completed "boom" "fail" 1⟩ false "boom" "fail" 1 rfl (by decide)⟩

end IpFreely
